import Mathlib

/-!
Verification of the outbound-caller call-lifecycle and disposition engine.

The definitions below are a shallow embedding of the Python sources:
`call_disposition.py` (disposition enums, keyword/regex classifier, tracker),
`database/recording_manager.py` (recording monitor loop and completion
handling), and `agent.py` (session teardown handler and entrypoint ordering).
Machine floats (call durations, measured in seconds) are modelled as
rationals; wall-clock reads (`datetime.utcnow()`) are modelled as explicit
time parameters.
-/

/-- Python `str.lower()` applied characterwise. -/
def pyLower (s : String) : String := String.mk (s.data.map Char.toLower)

/-- Substring containment on character lists: `containsSub n h` holds when
`n` occurs contiguously inside `h` (Python `n in h`). -/
def containsSub (needle : List Char) : List Char → Bool
  | [] => needle.isEmpty
  | c :: rest => needle.isPrefixOf (c :: rest) || containsSub needle rest

/-- Python membership test `needle in hay` on strings. -/
def strIn (needle hay : String) : Bool := containsSub needle.data hay.data

/-- Splits a character list on whitespace runs, as Python `str.split()`
with no argument does; `acc` holds the (reversed) current word. -/
def splitWsAux : List Char → List Char → List (List Char)
  | [], acc => if acc.isEmpty then [] else [acc.reverse]
  | c :: rest, acc =>
    if c.isWhitespace then
      if acc.isEmpty then splitWsAux rest [] else acc.reverse :: splitWsAux rest []
    else splitWsAux rest (c :: acc)

/-- Python `len(s.split())`: number of whitespace-separated words. -/
def wordCount (s : String) : Nat := (splitWsAux s.data []).length

/-- Python falsiness of `s.strip()`: the string is empty or all whitespace. -/
def isBlank (s : String) : Bool := s.data.all Char.isWhitespace

/-! Regular-expression fragment used by the date patterns of
`DispositionAnalyzer` (`call_disposition.py` lines 87-92).  The patterns
only use: word boundaries, character classes with counted repetition,
literal words, and alternation of literal words; matching is
case-insensitive (`re.IGNORECASE`). -/

/-- Python regex word character `\w` (ASCII range, as all inputs here are). -/
def isWordChar (c : Char) : Bool := c.isAlphanum || c = '_'

/-- One item of a regex sequence. -/
inductive RItem where
  | cls (p : Char → Bool)
  | cnt (p : Char → Bool) (lo : Nat) (hi : Option Nat)
  | lit (s : String)
  | alts (ss : List String)
  | wb

/-- A literal word as a sequence of case-insensitive single-character
classes (the pattern literals are lowercase). -/
def litExpand (w : String) : List RItem :=
  w.data.map (fun d => RItem.cls (fun c => c.toLower = d))

/-- Whether the optional character is a word character. -/
def optWord : Option Char → Bool
  | none => false
  | some c => isWordChar c

/-- Whether the first character of the list is a word character. -/
def headWord : List Char → Bool
  | [] => false
  | c :: _ => isWordChar c

/-- Word boundary `\b`: word-ness differs across the current position.
`prev` is the character just before the position (none at string start). -/
def boundaryOk (prev : Option Char) (s : List Char) : Bool :=
  optWord prev != headWord s

/-- Backtracking matcher: does some prefix of `s` match the item sequence,
given the character preceding `s`?  `fuel` bounds the recursion; every
call below passes enough fuel for the fixed date patterns, and the matcher
returns `true` only when an actual match exists. -/
def matchItems : Nat → List RItem → Option Char → List Char → Bool
  | 0, _, _, _ => false
  | fuel + 1, items, prev, s =>
    match items with
    | [] => true
    | RItem.cls p :: rest =>
      match s with
      | [] => false
      | c :: s2 => p c && matchItems fuel rest (some c) s2
    | RItem.cnt p lo hi :: rest =>
      ((lo == 0) && matchItems fuel rest prev s) ||
      (match hi with
       | some 0 => false
       | _ =>
         match s with
         | [] => false
         | c :: s2 =>
           p c &&
             matchItems fuel
               (RItem.cnt p (lo - 1) (Option.map (fun n => n - 1) hi) :: rest)
               (some c) s2)
    | RItem.lit w :: rest => matchItems fuel (litExpand w ++ rest) prev s
    | RItem.alts ws :: rest =>
      ws.any (fun w => matchItems fuel (litExpand w ++ rest) prev s)
    | RItem.wb :: rest => boundaryOk prev s && matchItems fuel rest prev s

/-- Python `re.search`: try the match at every start position, tracking the
preceding character for word boundaries. -/
def searchFrom (items : List RItem) : Option Char → List Char → Bool
  | prev, [] => matchItems 100 items prev []
  | prev, c :: s2 =>
    matchItems (2 * (s2.length + 1) + 100) items prev (c :: s2) ||
      searchFrom items (some c) s2

/-- Case-insensitive regex search of an item sequence in a string. -/
def reSearch (items : List RItem) (text : String) : Bool :=
  searchFrom items none text.data

/-- Character class `\d`. -/
def isDigitCh (c : Char) : Bool := c.isDigit

/-- Character class `\s`. -/
def isSpaceCh (c : Char) : Bool := c.isWhitespace

/-- Character class matching a slash or a dash. -/
def slashDash (c : Char) : Bool := c = '/' || c = '-'

/-- Pattern of a numeric date: one or two digits, slash or dash, one or
two digits, slash or dash, then two to four digits, between word boundaries. -/
def datePattern1 : List RItem :=
  [RItem.wb, RItem.cnt isDigitCh 1 (some 2), RItem.cls slashDash,
   RItem.cnt isDigitCh 1 (some 2), RItem.cls slashDash,
   RItem.cnt isDigitCh 2 (some 4), RItem.wb]

/-- Pattern `\b(yesterday|today|tomorrow|last\s+week|last\s+month)\b`, with
the outer word boundaries distributed over the alternation branches. -/
def datePattern2 : List (List RItem) :=
  [[RItem.wb, RItem.lit "yesterday", RItem.wb],
   [RItem.wb, RItem.lit "today", RItem.wb],
   [RItem.wb, RItem.lit "tomorrow", RItem.wb],
   [RItem.wb, RItem.lit "last", RItem.cnt isSpaceCh 1 none, RItem.lit "week", RItem.wb],
   [RItem.wb, RItem.lit "last", RItem.cnt isSpaceCh 1 none, RItem.lit "month", RItem.wb]]

/-- Weekday names of the third date pattern. -/
def dayNames : List String :=
  ["monday", "tuesday", "wednesday", "thursday", "friday", "saturday", "sunday"]

/-- Pattern `\b(monday|tuesday|wednesday|thursday|friday|saturday|sunday)\b`. -/
def datePattern3 : List RItem := [RItem.wb, RItem.alts dayNames, RItem.wb]

/-- Month names of the fourth date pattern. -/
def monthNames : List String :=
  ["january", "february", "march", "april", "may", "june", "july", "august",
   "september", "october", "november", "december"]

/-- Pattern `\b\d{1,2}(st|nd|rd|th)\s+(january|...|december)\b`. -/
def datePattern4 : List RItem :=
  [RItem.wb, RItem.cnt isDigitCh 1 (some 2), RItem.alts ["st", "nd", "rd", "th"],
   RItem.cnt isSpaceCh 1 none, RItem.alts monthNames, RItem.wb]

/-- The apostrophe character, used inside some refusal keywords. -/
def apos : String := (Char.ofNat 39).toString

/-- Connection status for the call (`call_disposition.py` lines 15-18). -/
inductive ConnectionStatus where
  | CONNECTED
  | NOT_CONNECTED
  deriving DecidableEq

/-- All possible call dispositions (`call_disposition.py` lines 21-47). -/
inductive CallDisposition where
  | USER_CLAIMED_PAYMENT_WITH_DATE
  | USER_CLAIMED_PAYMENT
  | USER_AGREES_TO_MAINTAIN_BALANCE
  | AGREE_TO_PAY
  | GENERAL
  | PAYMENT_DUE_REMINDER
  | REFUSED_TO_PAY
  | RTP_COUNSELLED
  | HUMAN_HANDOFF_REQUESTED
  | RAISE_DISPUTE_WITH_DETAIL
  | USER_BUSY_NOW
  | NO_RESPONSE
  | CUSTOMER_HANGUP
  | DELAY_REASON
  | UNCERTAIN_PROPENSITY_TO_PAY
  | ACCEPTABLE_PROMISE_TO_PAY
  | UNACCEPTABLE_PROMISE_TO_PAY
  | DO_NOT_CALL
  | BUSY
  | FAILED
  | NO_ANSWER
  deriving DecidableEq

/-- Mapping of dispositions to their required connection status
(`call_disposition.py` lines 51-76): every disposition except BUSY,
FAILED and NO_ANSWER requires CONNECTED. -/
def DISPOSITION_CONNECTION_MAP : CallDisposition → ConnectionStatus
  | CallDisposition.BUSY => ConnectionStatus.NOT_CONNECTED
  | CallDisposition.FAILED => ConnectionStatus.NOT_CONNECTED
  | CallDisposition.NO_ANSWER => ConnectionStatus.NOT_CONNECTED
  | _ => ConnectionStatus.CONNECTED

/-! Keyword tables of `DispositionAnalyzer` (`call_disposition.py`
lines 82-112). -/

/-- Payment-claim keywords. -/
def payment_keywords : List String :=
  ["paid", "payment", "pay", "made payment", "already paid",
   "cleared", "settled", "deposited"]

/-- Refusal keywords (several contain an apostrophe). -/
def refusal_keywords : List String :=
  ["won" ++ apos ++ "t pay", "not paying", "refuse", "can" ++ apos ++ "t pay",
   "no money", "not my responsibility", "won" ++ apos ++ "t",
   "can" ++ apos ++ "t", "unable"]

/-- Promise keywords. -/
def promise_keywords : List String :=
  ["will pay", "promise", "guarantee", "definitely", "surely",
   "tomorrow", "next week", "by", "on"]

/-- Dispute keywords. -/
def dispute_keywords : List String :=
  ["dispute", "complaint", "issue", "problem", "error",
   "mistake", "wrong", "incorrect"]

/-- Human-agent request keywords. -/
def human_agent_keywords : List String :=
  ["human", "agent", "person", "representative", "speak to someone",
   "talk to someone", "real person", "supervisor", "manager"]

/-- Busy-status keywords. -/
def busy_keywords : List String :=
  ["busy", "driving", "meeting", "not free", "call later",
   "bad time", "occupied"]

/-- Delay-reason indicator words (local list in `analyze_transcript`). -/
def delay_indicators : List String := ["because", "due to", "reason", "why", "since"]

/-- Membership of any keyword in the text, both lowercased
(`DispositionAnalyzer._contains_keywords`). -/
def contains_keywords (text : String) (keywords : List String) : Bool :=
  keywords.any (fun keyword => strIn (pyLower keyword) (pyLower text))

/-- Date-reference detection over the four date patterns
(`DispositionAnalyzer._contains_date`). -/
def contains_date (text : String) : Bool :=
  reSearch datePattern1 text || datePattern2.any (fun p => reSearch p text) ||
  reSearch datePattern3 text || reSearch datePattern4 text

/-- A transcript item as consumed by the analyzer: the dict keys
`speaker` and `text` (`timestamp` is never read by the classifier). -/
structure TranscriptItem where
  speaker : String
  text : String
  deriving DecidableEq

/-- The combined customer text: lowercased text of the items whose
speaker is "customer", joined with single spaces
(`analyze_transcript` lines 127-131). -/
def customer_text_of (transcript : List TranscriptItem) : String :=
  String.intercalate " "
    ((transcript.filter (fun item => item.speaker == "customer")).map
      (fun item => pyLower item.text))

/-- Rule cascade of `DispositionAnalyzer.analyze_transcript`
(lines 133-188), operating on the combined customer text. -/
def analyze_customer_text (customer_text : String) (call_duration : ℚ) : CallDisposition :=
  if call_duration < 10 ∧ call_duration > 0 then
    CallDisposition.CUSTOMER_HANGUP
  else if isBlank customer_text then
    CallDisposition.NO_RESPONSE
  else if contains_keywords customer_text human_agent_keywords then
    CallDisposition.HUMAN_HANDOFF_REQUESTED
  else if contains_keywords customer_text busy_keywords then
    CallDisposition.USER_BUSY_NOW
  else if contains_keywords customer_text payment_keywords then
    (if contains_date customer_text then
      CallDisposition.USER_CLAIMED_PAYMENT_WITH_DATE
    else
      CallDisposition.USER_CLAIMED_PAYMENT)
  else if contains_keywords customer_text refusal_keywords then
    CallDisposition.REFUSED_TO_PAY
  else if contains_keywords customer_text promise_keywords then
    (if contains_date customer_text then
      CallDisposition.ACCEPTABLE_PROMISE_TO_PAY
    else
      CallDisposition.AGREE_TO_PAY)
  else if contains_keywords customer_text dispute_keywords then
    CallDisposition.RAISE_DISPUTE_WITH_DETAIL
  else if strIn "maintain" customer_text && strIn "balance" customer_text then
    CallDisposition.USER_AGREES_TO_MAINTAIN_BALANCE
  else if contains_keywords customer_text delay_indicators && decide (wordCount customer_text > 10) then
    CallDisposition.DELAY_REASON
  else if wordCount customer_text > 5 then
    CallDisposition.GENERAL
  else
    CallDisposition.PAYMENT_DUE_REMINDER

/-- Full classifier `DispositionAnalyzer.analyze_transcript`: combine the
customer items, then run the rule cascade. -/
def analyze_transcript (transcript : List TranscriptItem) (call_duration : ℚ) : CallDisposition :=
  analyze_customer_text (customer_text_of transcript) call_duration

/-- SIP-status classifier `DispositionAnalyzer.determine_connection_disposition`
(`call_disposition.py` lines 202-221). -/
def determine_connection_disposition (sip_status : String) : Option CallDisposition :=
  let status_lower := pyLower sip_status
  if strIn "busy" status_lower then some CallDisposition.BUSY
  else if strIn "no answer" status_lower || strIn "timeout" status_lower then
    some CallDisposition.NO_ANSWER
  else if strIn "failed" status_lower || strIn "error" status_lower then
    some CallDisposition.FAILED
  else none

/-- State of `DispositionTracker` (`call_disposition.py` lines 224-234).
Wall-clock instants are rationals (seconds); the analyzer sub-object is
stateless and therefore not part of the state. -/
structure DispositionTracker where
  current_disposition : Option CallDisposition := none
  disposition_history : List (ℚ × CallDisposition) := []
  connection_status : Option ConnectionStatus := none
  transcript_items : List TranscriptItem := []
  call_start_time : Option ℚ := none
  call_connected_time : Option ℚ := none
  deriving DecidableEq

/-- The freshly constructed tracker (`DispositionTracker.__init__`). -/
def DispositionTracker.init : DispositionTracker := {}

/-- Method `set_connection_status(connected)`, with `now` standing for
`datetime.utcnow()`. -/
def DispositionTracker.set_connection_status
    (t : DispositionTracker) (connected : Bool) (now : ℚ) : DispositionTracker :=
  { t with
    connection_status :=
      some (if connected then ConnectionStatus.CONNECTED else ConnectionStatus.NOT_CONNECTED),
    call_connected_time := if connected then some now else t.call_connected_time }

/-- Method `add_transcript_item(speaker, text)`. -/
def DispositionTracker.add_transcript_item
    (t : DispositionTracker) (speaker text : String) : DispositionTracker :=
  { t with transcript_items := t.transcript_items ++ [{ speaker := speaker, text := text }] }

/-- Method `update_disposition(force_disposition)` (lines 250-272): a forced
disposition is taken as given, otherwise the classifier runs on the
accumulated transcript and the elapsed time since `call_start_time`
(zero when no start time is set); either way the result is appended,
timestamped, to the history. -/
def DispositionTracker.update_disposition
    (t : DispositionTracker) (force_disposition : Option CallDisposition) (now : ℚ) :
    DispositionTracker :=
  let new_disposition :=
    match force_disposition with
    | some d => d
    | none =>
      analyze_transcript t.transcript_items
        (match t.call_start_time with
         | some st => now - st
         | none => 0)
  { t with
    current_disposition := some new_disposition,
    disposition_history := t.disposition_history ++ [(now, new_disposition)] }

/-- The dictionary returned by `get_final_disposition` (lines 274-291). -/
structure DispositionSnapshot where
  disposition : Option CallDisposition
  connection_status : Option ConnectionStatus
  disposition_history : List (ℚ × CallDisposition)
  transcript_items : List TranscriptItem
  call_duration : ℚ
  deriving DecidableEq

/-- Method `get_final_disposition()`: a pure read of the tracker state. -/
def DispositionTracker.get_final_disposition
    (t : DispositionTracker) (now : ℚ) : DispositionSnapshot :=
  { disposition := t.current_disposition,
    connection_status := t.connection_status,
    disposition_history := t.disposition_history,
    transcript_items := t.transcript_items,
    call_duration :=
      match t.call_start_time with
      | some st => now - st
      | none => 0 }

/-! Session teardown (`agent.py`, `_handle_session_close`, lines 580-692).
The handler is modelled as a state-and-effects function: it reads the agent
state, emits its side effects in program order, and returns the (unchanged)
agent state — the Python code sets no guard flag of any kind before or
after its work. -/

/-- The slice of the agent state that `_handle_session_close` consults. -/
structure AgentCloseState where
  interaction_id : Option String
  egress_id : Option String
  has_audio_data : Bool
  database_enabled : Bool
  deriving DecidableEq

/-- Side effects of one run of `_handle_session_close`, in program order. -/
inductive CloseEffect where
  | log_transcript
  | update_call_completed_write
  | save_transcript_file
  | save_audio_file
  | stop_recording_logged
  | call_record_update_error
  deriving DecidableEq

/-- One invocation of `_handle_session_close`: log the transcript, persist
the completed interaction via `update_call_completed` when an
`interaction_id` is set, write the transcript file (plus the audio file
when audio was captured), log the recording stop when an egress id is set,
and attempt the final `Call`-table update — which raises `NameError`
(the `Call` import is commented out) and is logged — when the database is
enabled.  The returned state is the input state: nothing in the handler
marks the session as already closed. -/
def handle_session_close (st : AgentCloseState) : AgentCloseState × List CloseEffect :=
  (st,
    [CloseEffect.log_transcript]
      ++ (if st.interaction_id.isSome then [CloseEffect.update_call_completed_write] else [])
      ++ [CloseEffect.save_transcript_file]
      ++ (if st.has_audio_data then [CloseEffect.save_audio_file] else [])
      ++ (if st.egress_id.isSome then [CloseEffect.stop_recording_logged] else [])
      ++ (if st.database_enabled then [CloseEffect.call_record_update_error] else []))

/-! Entrypoint ordering (`agent.py`, `entrypoint`, lines 461-793, happy
path).  The main coroutine's externally visible steps are listed in
program order; `session.start` is spawned with `asyncio.create_task`
(line 696) and runs concurrently, so its completion event interleaves
anywhere after the spawn and no later than the resumption of
`await session_started` (line 739). -/

/-- Externally visible events of the entrypoint. -/
inductive EntryEvent where
  | connectRoom
  | spawnSessionStart
  | sessionStartCompleted
  | updateCallStarted
  | issueDial
  | dialAnswered
  | awaitSessionStarted
  | waitForParticipant
  | setConnected
  deriving DecidableEq, BEq

/-- Program order of the main coroutine on the happy path: connect to the
room, spawn the session-start task, record call started, issue the dial
command (`create_sip_participant`, blocking until answered), resume from
`await session_started`, wait for the participant, mark connected. -/
def entry_main_order : List EntryEvent :=
  [EntryEvent.connectRoom, EntryEvent.spawnSessionStart, EntryEvent.updateCallStarted,
   EntryEvent.issueDial, EntryEvent.dialAnswered, EntryEvent.awaitSessionStarted,
   EntryEvent.waitForParticipant, EntryEvent.setConnected]

/-- Insertion of an event before position `k` of a trace. -/
def insertEventAt (k : Nat) (x : EntryEvent) : List EntryEvent → List EntryEvent
  | [] => [x]
  | e :: rest =>
    match k with
    | 0 => x :: e :: rest
    | k2 + 1 => e :: insertEventAt k2 x rest

/-- An execution of the entrypoint's happy path: the main coroutine's steps
occur in `entry_main_order`, and the concurrently running session-start
task completes at some point strictly after its spawn (position 1) and
before the `await session_started` step (position 5) resumes. -/
def valid_entry_trace (tr : List EntryEvent) : Prop :=
  ∃ k, 2 ≤ k ∧ k ≤ 5 ∧ tr = insertEventAt k EntryEvent.sessionStartCompleted entry_main_order

/-! Recording monitor (`database/recording_manager.py`,
`RecordingManager._monitor_recording`, lines 175-262).  Each loop
iteration sleeps, then polls `list_egress`; the poll outcome is either
no matching job, or a job whose status the code compares against
`EGRESS_COMPLETE` and `EGRESS_FAILED` (anything else continues the loop). -/

/-- Status of a polled egress job, as the monitor loop distinguishes it. -/
inductive EgressPollStatus where
  | complete
  | failed
  | active
  deriving DecidableEq

/-- Database status writes the monitor loop can commit. -/
inductive MonitorWrite where
  | mark_completed
  | mark_failed
  deriving DecidableEq

/-- The monitor loop over a sequence of poll outcomes (`none` = platform
returned no matching job).  Returns the status writes it committed and
whether it stopped polling; an exhausted observation list means the loop
is still running.  `row_found` is whether the `CallRecording` row lookup
succeeds in the terminal branches. -/
def monitor_recording (row_found : Bool) :
    List (Option EgressPollStatus) → List MonitorWrite × Bool
  | [] => ([], false)
  | none :: _ => ([], true)
  | some EgressPollStatus.complete :: _ =>
    ((if row_found then [MonitorWrite.mark_completed] else []), true)
  | some EgressPollStatus.failed :: _ =>
    ((if row_found then [MonitorWrite.mark_failed] else []), true)
  | some EgressPollStatus.active :: rest => monitor_recording row_found rest

/-- A poll outcome at which the loop stops: a missing job or a terminal
status. -/
def terminal_or_missing : Option EgressPollStatus → Bool
  | none => true
  | some EgressPollStatus.complete => true
  | some EgressPollStatus.failed => true
  | some EgressPollStatus.active => false

/-! Completion handling inside the monitor's `EGRESS_COMPLETE` branch
(lines 207-237): update the row, organize the file, optionally upload to
S3 and only then optionally delete the local file. -/

/-- Environment of one execution of the completion branch: which lookups
succeed, whether S3 is in use, whether the organized file exists, the
upload outcome, and the `DELETE_LOCAL_AFTER_S3` setting. -/
structure CompleteEnv where
  recording_row_found : Bool
  has_file : Bool
  dispatch_id : Option String
  final_path : String
  use_s3 : Bool
  file_exists_before_upload : Bool
  upload_result : Option String
  delete_local_after_s3 : Bool
  deriving DecidableEq

/-- Fields of the `CallRecording` row written by the completion branch
(size and duration updates are elided: no claim concerns them). -/
structure RecordingUpdate where
  status : Option String := none
  file_url : Option String := none
  file_path : Option String := none
  deriving DecidableEq

/-- Filesystem and storage effects of the completion branch, in program
order. -/
inductive RecEffect where
  | organize_file
  | upload_attempt
  | delete_local
  | db_commit
  deriving DecidableEq

/-- The completion branch: when the row is found its status becomes
"completed"; when the egress reports a file and a dispatch id resolves,
the file is organized into `final_path`; with S3 enabled and the file
present an upload is attempted — on success `file_url` is set to the
returned URL, `file_path` to the local path, and the local file is
deleted (only if `DELETE_LOCAL_AFTER_S3` is set, and only after the
upload succeeded); on upload failure the local file is kept and neither
URL field is set; without S3 (or without the file) only `file_path` is
recorded. -/
def on_complete (env : CompleteEnv) : RecordingUpdate × List RecEffect :=
  if env.recording_row_found then
    let upd0 : RecordingUpdate := { status := some "completed" }
    if env.has_file then
      match env.dispatch_id with
      | some _ =>
        if env.use_s3 && env.file_exists_before_upload then
          match env.upload_result with
          | some url =>
            let upd := { upd0 with file_url := some url, file_path := some env.final_path }
            if env.delete_local_after_s3 then
              (upd, [RecEffect.organize_file, RecEffect.upload_attempt,
                     RecEffect.delete_local, RecEffect.db_commit])
            else
              (upd, [RecEffect.organize_file, RecEffect.upload_attempt, RecEffect.db_commit])
          | none =>
            (upd0, [RecEffect.organize_file, RecEffect.upload_attempt, RecEffect.db_commit])
        else
          ({ upd0 with file_path := some env.final_path },
           [RecEffect.organize_file, RecEffect.db_commit])
      | none => (upd0, [RecEffect.db_commit])
    else (upd0, [RecEffect.db_commit])
  else ({}, [])

/-- C6: for every raw dial-status string, `determine_connection_disposition`
returns BUSY when the lowercased status contains "busy"; otherwise
NO_ANSWER when it contains "no answer" or "timeout"; otherwise FAILED when
it contains the failure-ish text "failed" or "error"; otherwise none,
meaning the call connected. -/
theorem c6_dial_failure_classifier (s : String) :
    (strIn "busy" (pyLower s) = true →
      determine_connection_disposition s = some CallDisposition.BUSY) ∧
    (strIn "busy" (pyLower s) = false →
      (strIn "no answer" (pyLower s) || strIn "timeout" (pyLower s)) = true →
      determine_connection_disposition s = some CallDisposition.NO_ANSWER) ∧
    (strIn "busy" (pyLower s) = false →
      (strIn "no answer" (pyLower s) || strIn "timeout" (pyLower s)) = false →
      (strIn "failed" (pyLower s) || strIn "error" (pyLower s)) = true →
      determine_connection_disposition s = some CallDisposition.FAILED) ∧
    (strIn "busy" (pyLower s) = false →
      (strIn "no answer" (pyLower s) || strIn "timeout" (pyLower s)) = false →
      (strIn "failed" (pyLower s) || strIn "error" (pyLower s)) = false →
      determine_connection_disposition s = none) := by
  refine ⟨?_, ?_, ?_, ?_⟩
  · intro h1
    simp [determine_connection_disposition, h1]
  · intro h1 h2
    simp [determine_connection_disposition, h1, h2]
  · intro h1 h2 h3
    simp [determine_connection_disposition, h1, h2, h3]
  · intro h1 h2 h3
    simp [determine_connection_disposition, h1, h2, h3]

/-- C6 witness: the raw status "486 Busy Here" satisfies the busy branch
and is classified BUSY. -/
theorem c6_witness :
    strIn "busy" (pyLower "486 Busy Here") = true ∧
    determine_connection_disposition "486 Busy Here" = some CallDisposition.BUSY :=
  ⟨by decide, (c6_dial_failure_classifier "486 Busy Here").1 (by decide)⟩

/-- C7: for every transcript and every duration strictly between 0 and 10
seconds, the classifier returns CUSTOMER_HANGUP — the short-call rule is
evaluated first and wins over all keyword rules. -/
theorem c7_short_call_customer_hangup
    (transcript : List TranscriptItem) (d : ℚ) (h1 : 0 < d) (h2 : d < 10) :
    analyze_transcript transcript d = CallDisposition.CUSTOMER_HANGUP := by
  unfold analyze_transcript analyze_customer_text
  rw [if_pos ⟨h2, h1⟩]

/-- C7 witness: a 4-second call whose transcript would match the
payment-claim rules is still classified CUSTOMER_HANGUP. -/
theorem c7_witness :
    (0 : ℚ) < 4 ∧ (4 : ℚ) < 10 ∧
    analyze_transcript [⟨"customer", "I already paid it yesterday"⟩] 4 =
      CallDisposition.CUSTOMER_HANGUP :=
  ⟨by norm_num, by norm_num,
    c7_short_call_customer_hangup _ 4 (by norm_num) (by norm_num)⟩

set_option maxRecDepth 8000 in
/-- C8: the transcript with the single customer item
"I already paid it yesterday" at duration 40 seconds is classified
USER_CLAIMED_PAYMENT_WITH_DATE: no earlier rule matches, "paid" matches a
payment keyword, and "yesterday" matches the date patterns. -/
theorem c8_payment_with_date_example :
    analyze_transcript [⟨"customer", "I already paid it yesterday"⟩] 40 =
      CallDisposition.USER_CLAIMED_PAYMENT_WITH_DATE := by
  decide

/-- C9: every `update_disposition` call — forced or classifier-driven —
appends exactly one event to `disposition_history`, leaving the existing
entries untouched, so the history length grows by exactly one. -/
theorem c9_update_disposition_appends
    (t : DispositionTracker) (force : Option CallDisposition) (now : ℚ) :
    ∃ e : ℚ × CallDisposition,
      (t.update_disposition force now).disposition_history =
        t.disposition_history ++ [e] ∧
      (t.update_disposition force now).disposition_history.length =
        t.disposition_history.length + 1 := by
  refine ⟨_, rfl, ?_⟩
  simp [DispositionTracker.update_disposition]

/-- C10: the classifier result depends only on the customer-authored items
and the duration — transcripts with identical customer-item subsequences
classify identically, whatever the non-customer items are. -/
theorem c10_depends_only_on_customer_items
    (t1 t2 : List TranscriptItem) (d : ℚ)
    (h : t1.filter (fun item => item.speaker == "customer") =
         t2.filter (fun item => item.speaker == "customer")) :
    analyze_transcript t1 d = analyze_transcript t2 d := by
  unfold analyze_transcript customer_text_of
  rw [h]

/-- C10 witness: removing an agent item leaves the classification
unchanged. -/
theorem c10_witness :
    ([⟨"agent", "please pay today"⟩, ⟨"customer", "ok"⟩] : List TranscriptItem).filter
        (fun item => item.speaker == "customer") =
      ([⟨"customer", "ok"⟩] : List TranscriptItem).filter
        (fun item => item.speaker == "customer") ∧
    analyze_transcript [⟨"agent", "please pay today"⟩, ⟨"customer", "ok"⟩] 15 =
      analyze_transcript [⟨"customer", "ok"⟩] 15 :=
  ⟨by decide, c10_depends_only_on_customer_items _ _ 15 (by decide)⟩

/-- C1 counterexample: the claim fails on the code.  Starting from a fresh
tracker, record the call as not connected, then force the CONNECTED-only
disposition USER_CLAIMED_PAYMENT; `get_final_disposition` reports that
disposition together with NOT_CONNECTED — the Tracker performs no
enforcement at finalization. -/
theorem c1_counterexample :
    ((DispositionTracker.init.set_connection_status false 0).update_disposition
        (some CallDisposition.USER_CLAIMED_PAYMENT) 1 |>.get_final_disposition 2).disposition =
      some CallDisposition.USER_CLAIMED_PAYMENT ∧
    ((DispositionTracker.init.set_connection_status false 0).update_disposition
        (some CallDisposition.USER_CLAIMED_PAYMENT) 1 |>.get_final_disposition 2).connection_status =
      some ConnectionStatus.NOT_CONNECTED ∧
    DISPOSITION_CONNECTION_MAP CallDisposition.USER_CLAIMED_PAYMENT ≠
      ConnectionStatus.NOT_CONNECTED := by
  decide

/-- C1 amended: `DISPOSITION_CONNECTION_MAP` records each disposition's
required connection status, but the Tracker does not enforce it at
finalization: `get_final_disposition` returns the stored current
disposition and connection status unchanged, so a forced incompatible
disposition is reported as-is. -/
theorem c1_amended_finalization_is_passthrough (t : DispositionTracker) (now : ℚ) :
    (t.get_final_disposition now).disposition = t.current_disposition ∧
    (t.get_final_disposition now).connection_status = t.connection_status :=
  ⟨rfl, rfl⟩

/-- C2: the claim fails on the code.  A second invocation of
`_handle_session_close` on the very state the first invocation returned
performs the `update_call_completed` persistence write again — the handler
records nothing that would make a repeat invocation a no-op, so two
invocations produce two persisted "completed" writes, not one. -/
theorem c2_teardown_not_idempotent :
    (handle_session_close ⟨some "interaction-1", none, false, false⟩).1 =
      ⟨some "interaction-1", none, false, false⟩ ∧
    ((handle_session_close ⟨some "interaction-1", none, false, false⟩).2 ++
        (handle_session_close
          (handle_session_close ⟨some "interaction-1", none, false, false⟩).1).2).count
      CloseEffect.update_call_completed_write = 2 := by
  decide

/-- The execution used to refute C3: the session-start task completes only
after the dial command was already issued and answered. -/
def c3_trace : List EntryEvent :=
  insertEventAt 5 EntryEvent.sessionStartCompleted entry_main_order

/-- C3 counterexample: the claim fails on the code.  `c3_trace` is a valid
execution of the entrypoint — the spawned session-start task completes
just before `await session_started` resumes — and in it the dial command
is issued strictly before the session-start command completes. -/
theorem c3_counterexample :
    valid_entry_trace c3_trace ∧
    c3_trace.indexOf EntryEvent.issueDial <
      c3_trace.indexOf EntryEvent.sessionStartCompleted :=
  ⟨⟨5, by norm_num, by norm_num, rfl⟩, by decide⟩

/-- C3 amended: in every execution of the entrypoint the session-start
command is issued (its task spawned) before the dial command is issued,
and its completion is awaited before the participant-join wait — but the
dial command may be issued before session start completes, since the code
only awaits the spawned task after dialing. -/
theorem c3_amended_spawn_before_dial (tr : List EntryEvent) (h : valid_entry_trace tr) :
    tr.indexOf EntryEvent.spawnSessionStart < tr.indexOf EntryEvent.issueDial ∧
    tr.indexOf EntryEvent.sessionStartCompleted <
      tr.indexOf EntryEvent.waitForParticipant := by
  obtain ⟨k, hk1, hk2, rfl⟩ := h
  interval_cases k <;> decide

/-- C3 amended witness: the ordering facts hold on the concrete valid
trace `c3_trace`. -/
theorem c3_amended_witness :
    valid_entry_trace c3_trace ∧
    (c3_trace.indexOf EntryEvent.spawnSessionStart < c3_trace.indexOf EntryEvent.issueDial ∧
     c3_trace.indexOf EntryEvent.sessionStartCompleted <
       c3_trace.indexOf EntryEvent.waitForParticipant) := by
  have h : valid_entry_trace c3_trace := ⟨5, by norm_num, by norm_num, rfl⟩
  exact ⟨h, c3_amended_spawn_before_dial c3_trace h⟩

/-- C4 counterexample: the claim fails on the code.  When the platform
returns no matching job on the first poll, the loop stops polling but
commits no status write at all — in particular it does not mark the
persisted record FAILED. -/
theorem c4_counterexample :
    monitor_recording true [none] = ([], true) ∧
    MonitorWrite.mark_failed ∉ (monitor_recording true [none]).1 := by
  decide

/-- C4 amended: when the platform returns no matching job the monitor loop
stops polling immediately with no database write, leaving the persisted
record's status unchanged (it is not marked FAILED); and the loop never
polls past an observation that is terminal or missing — it stops at the
first such poll outcome. -/
theorem c4_amended_stop_without_write (row_found : Bool)
    (rest obs : List (Option EgressPollStatus))
    (h : obs.any terminal_or_missing = true) :
    monitor_recording row_found (none :: rest) = ([], true) ∧
    (monitor_recording row_found obs).2 = true := by
  refine ⟨rfl, ?_⟩
  induction obs with
  | nil => simp at h
  | cons o rest2 ih =>
    match o with
    | none => rfl
    | some EgressPollStatus.complete => simp [monitor_recording]
    | some EgressPollStatus.failed => simp [monitor_recording]
    | some EgressPollStatus.active =>
      exact ih (by simpa [terminal_or_missing] using h)

/-- C4 amended witness: after one non-terminal poll and one missing-job
poll the loop has stopped, and the missing-job poll produced no write. -/
theorem c4_witness :
    ([some EgressPollStatus.active, none] : List (Option EgressPollStatus)).any
        terminal_or_missing = true ∧
    (monitor_recording true [none] = ([], true) ∧
     (monitor_recording true [some EgressPollStatus.active, none]).2 = true) :=
  ⟨by decide,
    c4_amended_stop_without_write true [] [some EgressPollStatus.active, none] (by decide)⟩

/-- C5: in the completion branch of the monitor, the local file is deleted
only after a confirmed successful upload — a deletion can only occur in
the effect sequence that places it strictly after the upload attempt, and
only when the upload returned a URL; when the upload fails the local
artifact is retained; and on upload success `file_url` is set to the
returned URL while `file_path` keeps the last-known local path. -/
theorem c5_delete_only_after_upload (env : CompleteEnv) :
    (RecEffect.delete_local ∈ (on_complete env).2 →
      (∃ url, env.upload_result = some url) ∧
      (on_complete env).2 =
        [RecEffect.organize_file, RecEffect.upload_attempt,
         RecEffect.delete_local, RecEffect.db_commit]) ∧
    (env.upload_result = none → RecEffect.delete_local ∉ (on_complete env).2) ∧
    (∀ url, env.upload_result = some url →
      RecEffect.upload_attempt ∈ (on_complete env).2 →
      (on_complete env).1.file_url = some url ∧
      (on_complete env).1.file_path = some env.final_path) := by
  obtain ⟨rf, hf, did, fp, s3, ex, ur, del⟩ := env
  cases rf <;> cases hf <;> rcases did with _ | d <;> cases s3 <;> cases ex <;>
    rcases ur with _ | u <;> cases del <;>
    simp [on_complete]

/-- C5 witness: a successful upload run shows the deletion after the upload
attempt and the recorded URL and local path. -/
theorem c5_witness :
    RecEffect.delete_local ∈
      (on_complete ⟨true, true, some "dispatch-1", "recordings/2099/01/01/dispatch-1.mp4",
        true, true, some "https-example-url", true⟩).2 ∧
    (on_complete ⟨true, true, some "dispatch-1", "recordings/2099/01/01/dispatch-1.mp4",
        true, true, some "https-example-url", true⟩).2 =
      [RecEffect.organize_file, RecEffect.upload_attempt,
       RecEffect.delete_local, RecEffect.db_commit] ∧
    (on_complete ⟨true, true, some "dispatch-1", "recordings/2099/01/01/dispatch-1.mp4",
        true, true, some "https-example-url", true⟩).1.file_url = some "https-example-url" ∧
    (on_complete ⟨true, true, some "dispatch-1", "recordings/2099/01/01/dispatch-1.mp4",
        true, true, some "https-example-url", true⟩).1.file_path =
      some "recordings/2099/01/01/dispatch-1.mp4" := by
  refine ⟨by decide,
    ((c5_delete_only_after_upload _).1 (by decide)).2, ?_, ?_⟩
  · exact ((c5_delete_only_after_upload _).2.2 "https-example-url" rfl (by decide)).1
  · exact ((c5_delete_only_after_upload _).2.2 "https-example-url" rfl (by decide)).2
